import Mathlib

/-!
Verification of the zanan-dict frontend (React, src/zanan-frontend) and, where
the backend source is absent, of the orchestration rules the spec describes.
Each JavaScript handler is embedded as a pure Lean function: network effects
become explicit request values, fetch outcomes become an inductive type, and
React state updates become state-transition functions.
-/

namespace ZananDict

/-- A JSON value, as produced by JSON.stringify on the object literals the
frontend sends.  Object fields are kept in literal order. -/
inductive Json where
  | str : String → Json
  | num : ℚ → Json
  | arr : List Json → Json
  | obj : List (String × Json) → Json

/-- An HTTP request as issued by fetch: method, full URL, and the JSON body
fields (empty list when the request has no body). -/
structure HttpRequest where
  method : String
  url : String
  body : List (String × Json)

/-- The keys of the JSON body, in order. -/
def HttpRequest.bodyKeys (r : HttpRequest) : List String :=
  r.body.map Prod.fst

namespace App

/-- The request built by handleSearch in App.jsx (lines 47-67):
fetch(backendUrl + "/api/query", method POST,
body JSON.stringify with fields word, languages, example_count). -/
def handleSearchRequest (backendUrl word : String) (languages : List String)
    (exampleCount : ℕ) : HttpRequest :=
  { method := "POST"
    url := backendUrl ++ "/api/query"
    body := [("word", .str word),
             ("languages", .arr (languages.map .str)),
             ("example_count", .num exampleCount)] }

/-- The request built by handleRandomSearch in App.jsx (lines 69-93):
fetch(backendUrl + "/api/random", method POST,
body JSON.stringify with fields style, languages, example_count). -/
def handleRandomRequest (backendUrl style : String) (languages : List String)
    (exampleCount : ℕ) : HttpRequest :=
  { method := "POST"
    url := backendUrl ++ "/api/random"
    body := [("style", .str style),
             ("languages", .arr (languages.map .str)),
             ("example_count", .num exampleCount)] }

end App

/-- Claim C3 as stated is false: the query request goes to path /api/query,
not /query, and its body field for the example count is named example_count,
not exampleCount.  Shown at the concrete call
handleSearchRequest "" "hello" [en] 2. -/
theorem c3_counterexample :
    (App.handleSearchRequest "" "hello" ["en"] 2).url ≠ "/query" ∧
    "exampleCount" ∉ (App.handleSearchRequest "" "hello" ["en"] 2).bodyKeys ∧
    "example_count" ∈ (App.handleSearchRequest "" "hello" ["en"] 2).bodyKeys := by
  refine ⟨by decide, by decide, by decide⟩

/-- Claim C3, amended: for every word, language selection and example count,
the query request the client sends is a POST whose URL is the backend URL
followed by /api/query and whose JSON body has exactly the keys word,
languages and example_count, in that order. -/
theorem c3_query_request_shape (backendUrl word : String)
    (languages : List String) (exampleCount : ℕ) :
    (App.handleSearchRequest backendUrl word languages exampleCount).method = "POST" ∧
    (App.handleSearchRequest backendUrl word languages exampleCount).url =
      backendUrl ++ "/api/query" ∧
    (App.handleSearchRequest backendUrl word languages exampleCount).bodyKeys =
      ["word", "languages", "example_count"] := by
  refine ⟨rfl, rfl, rfl⟩

/-- A query record as the frontend reads it: the word and the numeric
timestamp that keys the record (HistoryPanel propTypes: word string,
timestamp number). -/
structure QueryData where
  word : String
  timestamp : ℚ
deriving DecidableEq, Repr

/-- The part of the App component state the handlers update: the displayed
query result and the history list (App.jsx lines 10-11). -/
structure AppState where
  queryResult : Option QueryData
  queryHistory : List QueryData
deriving DecidableEq, Repr

/-- Outcome of an awaited fetch together with response.json(): either the
parsed value, or a thrown error (network failure or JSON parse failure). -/
inductive FetchResult (α : Type) where
  | ok : α → FetchResult α
  | error : FetchResult α

/-- Outcome of the DELETE fetch in App.jsx handleDelete: a response with
response.ok true, a non-ok response with its body text, or a thrown error. -/
inductive DeleteResponse where
  | ok : DeleteResponse
  | errorResponse : String → DeleteResponse
  | exception : DeleteResponse

namespace App

/-- State transition of handleSearch in App.jsx (lines 47-67): on success the
response data becomes the displayed result and the history is refetched; the
catch block only logs, so on failure the state is untouched. -/
def handleSearch (st : AppState) (response : FetchResult QueryData)
    (refreshedHistory : List QueryData) : AppState :=
  match response with
  | .ok data => { queryResult := some data, queryHistory := refreshedHistory }
  | .error => st

/-- State transition and return value of handleRandomSearch in App.jsx
(lines 69-93): on success the data becomes the displayed result, the history
is refetched and data.word is returned; the catch block logs and returns
null, leaving the state untouched. -/
def handleRandomSearch (st : AppState) (response : FetchResult QueryData)
    (refreshedHistory : List QueryData) : AppState × Option String :=
  match response with
  | .ok data =>
      ({ queryResult := some data, queryHistory := refreshedHistory }, some data.word)
  | .error => (st, none)

/-- State transition of handleDelete in App.jsx (lines 95-114): on an ok
response the history is refetched and the displayed result is cleared when
its timestamp equals the deleted key; a non-ok response or a thrown error is
only logged and changes nothing. -/
def handleDelete (st : AppState) (timestamp : ℚ) (response : DeleteResponse)
    (refreshedHistory : List QueryData) : AppState :=
  match response with
  | .ok =>
      { queryResult :=
          match st.queryResult with
          | some q => if q.timestamp = timestamp then none else some q
          | none => none
        queryHistory := refreshedHistory }
  | .errorResponse _ => st
  | .exception => st

/-- The DELETE request issued by handleDelete in App.jsx: method DELETE to
backendUrl + "/api/queries/" + timestamp; the interpolated timestamp is kept
as the request key. -/
structure DeleteRequest where
  method : String
  urlBase : String
  key : ℚ
deriving DecidableEq, Repr

/-- The request handleDelete builds for a given timestamp argument. -/
def handleDeleteRequest (backendUrl : String) (timestamp : ℚ) : DeleteRequest :=
  { method := "DELETE", urlBase := backendUrl ++ "/api/queries/", key := timestamp }

end App

namespace SearchHeader

/-- handleRandomClick in the SearchHeader component: awaits
onRandomSearch and, when the returned word is truthy (neither null nor the
empty string), writes it into the search input; otherwise the input keeps
its value. -/
def handleRandomClick (searchWord : String) (randomWord : Option String) : String :=
  match randomWord with
  | some w => if w = "" then searchWord else w
  | none => searchWord

end SearchHeader

namespace HistoryPanel

/-- The value handleDelete in HistoryPanel.jsx (lines 32-44) passes to
onDelete for a numeric record timestamp:
new Date(record.timestamp).getTime() / 1000, i.e. the timestamp divided by
1000.  The isDeleting guard and the confirm dialog answer are explicit
inputs; none means no DELETE is issued. -/
def handleDelete (record : QueryData) (isDeleting confirmed : Bool) : Option ℚ :=
  if isDeleting then none
  else if confirmed then some (record.timestamp / 1000)
  else none

end HistoryPanel

/-- Claim C10: if the POST /api/query fetch or its JSON parsing throws,
handleSearch leaves both the displayed query result and the history list
exactly as they were. -/
theorem c10_search_error_preserves_state (st : AppState)
    (refreshedHistory : List QueryData) :
    (App.handleSearch st .error refreshedHistory).queryResult = st.queryResult ∧
    (App.handleSearch st .error refreshedHistory).queryHistory = st.queryHistory :=
  ⟨rfl, rfl⟩

/-- Claim C8: when the delete request returns an error response (or the fetch
itself throws), handleDelete returns normally and leaves the history list and
the displayed query result unchanged. -/
theorem c8_delete_error_preserves_state (st : AppState) (timestamp : ℚ)
    (text : String) (refreshedHistory : List QueryData) :
    App.handleDelete st timestamp (.errorResponse text) refreshedHistory = st ∧
    App.handleDelete st timestamp .exception refreshedHistory = st :=
  ⟨rfl, rfl⟩

/-- Claim C5: a successful random query returns the word field of the
response and the search input is then set to that word; a failed request
returns none and leaves both the app state and the search input unchanged. -/
theorem c5_random_word_reported (st : AppState) (refreshedHistory : List QueryData)
    (data : QueryData) (searchWord : String) (hw : data.word ≠ "") :
    (App.handleRandomSearch st (.ok data) refreshedHistory).2 = some data.word ∧
    SearchHeader.handleRandomClick searchWord
      (App.handleRandomSearch st (.ok data) refreshedHistory).2 = data.word ∧
    (App.handleRandomSearch st .error refreshedHistory).2 = none ∧
    (App.handleRandomSearch st .error refreshedHistory).1 = st ∧
    SearchHeader.handleRandomClick searchWord
      (App.handleRandomSearch st .error refreshedHistory).2 = searchWord := by
  refine ⟨rfl, ?_, rfl, rfl, rfl⟩
  simp [App.handleRandomSearch, SearchHeader.handleRandomClick, hw]

/-- Witness for claim C5 at a concrete successful response and a concrete
failure, from the empty app state. -/
theorem c5_random_word_reported_witness :
    (App.handleRandomSearch ⟨none, []⟩ (.ok ⟨"hello", 1⟩) []).2 = some "hello" ∧
    SearchHeader.handleRandomClick "old"
      (App.handleRandomSearch ⟨none, []⟩ (.ok ⟨"hello", 1⟩) []).2 = "hello" ∧
    (App.handleRandomSearch (⟨none, []⟩ : AppState) .error []).2 = none ∧
    (App.handleRandomSearch (⟨none, []⟩ : AppState) .error []).1 = ⟨none, []⟩ ∧
    SearchHeader.handleRandomClick "old"
      (App.handleRandomSearch (⟨none, []⟩ : AppState) .error []).2 = "old" :=
  c5_random_word_reported ⟨none, []⟩ [] ⟨"hello", 1⟩ "old" (by decide)

/-- Claim C2 as stated is false: for the record with numeric timestamp 2000,
confirming deletion passes 2000 / 1000 = 2 to onDelete, so the DELETE request
key is 2, not the record timestamp 2000. -/
theorem c2_counterexample :
    HistoryPanel.handleDelete ⟨"hello", 2000⟩ false true = some 2 ∧
    (App.handleDeleteRequest "http://localhost:8000" 2).key ≠ (2000 : ℚ) := by
  constructor
  · norm_num [HistoryPanel.handleDelete]
  · norm_num [App.handleDeleteRequest]

/-- Claim C2, amended: confirming deletion of a record (with no deletion
already in flight) issues a DELETE request to /api/queries/ keyed by the
record timestamp divided by 1000 — the value
new Date(record.timestamp).getTime() / 1000 — not by the raw timestamp. -/
theorem c2_delete_request_key (record : QueryData) (backendUrl : String) :
    HistoryPanel.handleDelete record false true = some (record.timestamp / 1000) ∧
    (App.handleDeleteRequest backendUrl (record.timestamp / 1000)).method =
      "DELETE" ∧
    (App.handleDeleteRequest backendUrl (record.timestamp / 1000)).key =
      record.timestamp / 1000 :=
  ⟨rfl, rfl, rfl⟩

namespace SettingsPanel

/-- The style radio options rendered by SettingsPanel.jsx (lines 5-10), as
pairs of id and display name. -/
def styles : List (String × String) :=
  [("work", "职场"), ("life", "生活"), ("computer", "计算机"), ("study", "学习")]

/-- The ids the style radio group can emit through onRandomStyleChange. -/
def styleIds : List String := styles.map Prod.fst

/-- The option values of the example-count select in SettingsPanel.jsx
(lines 16-29) and of the identical select in SearchHeader.jsx (lines 52-63);
onExampleCountChange receives Number of the selected option value. -/
def exampleCountOptions : List ℕ := [1, 2, 3, 4, 5]

end SettingsPanel

namespace App

/-- Initial exampleCount state: useState(2) in App.jsx line 14. -/
def initialExampleCount : ℕ := 2

/-- Initial randomStyle state: useState of work in App.jsx line 15. -/
def initialRandomStyle : String := "work"

/-- The values the exampleCount state can take: it starts at
initialExampleCount, and every update is a selection of one of the offered
option values. -/
inductive ExampleCountReachable : ℕ → Prop where
  | init : ExampleCountReachable initialExampleCount
  | select (n v : ℕ) : ExampleCountReachable n →
      v ∈ SettingsPanel.exampleCountOptions → ExampleCountReachable v

/-- The values the randomStyle state can take: it starts at
initialRandomStyle, and every update is a selection of one of the rendered
radio values. -/
inductive RandomStyleReachable : String → Prop where
  | init : RandomStyleReachable initialRandomStyle
  | select (s v : String) : RandomStyleReachable s →
      v ∈ SettingsPanel.styleIds → RandomStyleReachable v

end App

/-- Claim C4: every example count the client can hold is in [1,5], and the
query request built from it carries exactly that value in its example_count
body field. -/
theorem c4_example_count_in_range (n : ℕ) (h : App.ExampleCountReachable n)
    (backendUrl word : String) (languages : List String) :
    1 ≤ n ∧ n ≤ 5 ∧
    (App.handleSearchRequest backendUrl word languages n).body.lookup
      "example_count" = some (.num n) := by
  have hr : 1 ≤ n ∧ n ≤ 5 := by
    induction h with
    | init => decide
    | select m v hm hv ih =>
        simp only [SettingsPanel.exampleCountOptions, List.mem_cons,
          List.not_mem_nil, or_false] at hv
        rcases hv with rfl | rfl | rfl | rfl | rfl <;> omega
  exact ⟨hr.1, hr.2, rfl⟩

/-- Witness for claim C4: the state 5 is reachable by one selection from the
initial state 2, and the request built from it carries example_count 5. -/
theorem c4_example_count_in_range_witness :
    1 ≤ (5 : ℕ) ∧ (5 : ℕ) ≤ 5 ∧
    (App.handleSearchRequest "http://localhost:8000" "hello" ["en"] 5).body.lookup
      "example_count" = some (.num ((5 : ℕ) : ℚ)) :=
  c4_example_count_in_range 5
    (.select App.initialExampleCount 5 .init (by decide))
    "http://localhost:8000" "hello" ["en"]

/-- Claim C6: every style the client can hold is one of the four rendered
style ids (work, life, computer, study), and the random request built from
it carries exactly that value in its style body field. -/
theorem c6_random_style_in_set (s : String) (h : App.RandomStyleReachable s)
    (backendUrl : String) (languages : List String) (exampleCount : ℕ) :
    s ∈ SettingsPanel.styleIds ∧
    (App.handleRandomRequest backendUrl s languages exampleCount).body.lookup
      "style" = some (.str s) := by
  refine ⟨?_, rfl⟩
  induction h with
  | init => decide
  | select m v hm hv ih => exact hv

/-- Witness for claim C6: the style life is reachable by one selection from
the initial style work, and the request built from it carries style life. -/
theorem c6_random_style_in_set_witness :
    "life" ∈ SettingsPanel.styleIds ∧
    (App.handleRandomRequest "http://localhost:8000" "life" ["en"] 2).body.lookup
      "style" = some (.str "life") :=
  c6_random_style_in_set "life"
    (.select App.initialRandomStyle "life" .init (by decide))
    "http://localhost:8000" ["en"] 2

namespace AudioPlayer

/-- The audio request URL built in AudioPlayer.jsx (both the text variant
src on line 28 and the icon variant Audio constructor on line 38):
"/api/audio/" + audioUrl + "?t=" + Date.now(). -/
def audioSrc (audioUrl : String) (now : ℕ) : String :=
  "/api/audio/" ++ audioUrl ++ "?t=" ++ toString now

end AudioPlayer

/-- The path of a URL: everything before the first question mark. -/
def urlPath (s : String) : String :=
  ⟨s.data.takeWhile (fun c => c ≠ '?')⟩

/-- The query string of a URL: everything after the first question mark. -/
def urlQuery (s : String) : String :=
  ⟨(s.data.dropWhile (fun c => c ≠ '?')).drop 1⟩

lemma string_eq_of_data (s t : String) (h : s.data = t.data) : s = t := by
  cases s; cases t; simp_all

lemma takeWhile_append_all {α} (p : α → Bool) {l1 : List α} (l2 : List α)
    (h : ∀ a ∈ l1, p a = true) :
    (l1 ++ l2).takeWhile p = l1 ++ l2.takeWhile p := by
  induction l1 with
  | nil => simp
  | cons a l ih =>
      have ha : p a = true := h a (List.mem_cons_self a l)
      have hl : ∀ b ∈ l, p b = true := fun b hb => h b (List.mem_cons_of_mem a hb)
      simp [List.takeWhile_cons, ha, ih hl]

lemma dropWhile_append_all {α} (p : α → Bool) {l1 : List α} (l2 : List α)
    (h : ∀ a ∈ l1, p a = true) :
    (l1 ++ l2).dropWhile p = l2.dropWhile p := by
  induction l1 with
  | nil => simp
  | cons a l ih =>
      have ha : p a = true := h a (List.mem_cons_self a l)
      have hl : ∀ b ∈ l, p b = true := fun b hb => h b (List.mem_cons_of_mem a hb)
      simp [List.dropWhile_cons, ha, ih hl]

lemma audioSrc_data (audioUrl : String) (now : ℕ) :
    (AudioPlayer.audioSrc audioUrl now).data =
      ("/api/audio/" : String).data ++
        (audioUrl.data ++ ('?' :: 't' :: '=' :: (toString now).data)) := by
  show ((("/api/audio/" ++ audioUrl) ++ "?t=") ++ toString now).data = _
  simp only [String.data_append, List.append_assoc]
  rfl

lemma audioSrc_path (audioUrl : String) (now : ℕ)
    (h : ∀ c ∈ audioUrl.data, c ≠ '?') :
    urlPath (AudioPlayer.audioSrc audioUrl now) = "/api/audio/" ++ audioUrl := by
  apply string_eq_of_data
  have hd : (urlPath (AudioPlayer.audioSrc audioUrl now)).data =
      ((AudioPlayer.audioSrc audioUrl now).data).takeWhile
        (fun c => decide (c ≠ '?')) := rfl
  rw [hd, audioSrc_data, String.data_append,
    takeWhile_append_all _ _ (by decide),
    takeWhile_append_all _ _ (fun c hc => decide_eq_true (h c hc))]
  simp [List.takeWhile_cons]

lemma audioSrc_query (audioUrl : String) (now : ℕ)
    (h : ∀ c ∈ audioUrl.data, c ≠ '?') :
    urlQuery (AudioPlayer.audioSrc audioUrl now) = "t=" ++ toString now := by
  apply string_eq_of_data
  have hd : (urlQuery (AudioPlayer.audioSrc audioUrl now)).data =
      (((AudioPlayer.audioSrc audioUrl now).data).dropWhile
        (fun c => decide (c ≠ '?'))).drop 1 := rfl
  rw [hd, audioSrc_data,
    dropWhile_append_all _ _ (by decide),
    dropWhile_append_all _ _ (fun c hc => decide_eq_true (h c hc)),
    String.data_append]
  simp [List.dropWhile_cons]

/-- Claim C7: for an audioRef containing no question mark, every audio
request URL has path exactly /api/audio/ followed by the audioRef, its query
string is exactly the cache-buster t parameter, and two requests for the
same audioRef share the same path. -/
theorem c7_audio_request_url (audioUrl : String) (now n1 n2 : ℕ)
    (h : ∀ c ∈ audioUrl.data, c ≠ '?') :
    urlPath (AudioPlayer.audioSrc audioUrl now) = "/api/audio/" ++ audioUrl ∧
    urlQuery (AudioPlayer.audioSrc audioUrl now) = "t=" ++ toString now ∧
    urlPath (AudioPlayer.audioSrc audioUrl n1) =
      urlPath (AudioPlayer.audioSrc audioUrl n2) := by
  refine ⟨audioSrc_path audioUrl now h, audioSrc_query audioUrl now h, ?_⟩
  rw [audioSrc_path audioUrl n1 h, audioSrc_path audioUrl n2 h]

/-- Witness for claim C7 at the concrete audioRef abc.mp3 and times 5, 3, 9. -/
theorem c7_audio_request_url_witness :
    urlPath (AudioPlayer.audioSrc "abc.mp3" 5) = "/api/audio/" ++ "abc.mp3" ∧
    urlQuery (AudioPlayer.audioSrc "abc.mp3" 5) = "t=" ++ toString 5 ∧
    urlPath (AudioPlayer.audioSrc "abc.mp3" 3) =
      urlPath (AudioPlayer.audioSrc "abc.mp3" 9) :=
  c7_audio_request_url "abc.mp3" 5 3 9 (by decide)

namespace QueryResult

/-- One entry of results.definitions as the Body component of
QueryResult.jsx reads it. -/
structure DefinitionResult where
  definition : String
  phonetic : String
deriving DecidableEq, Repr

/-- One entry of an example list as Body reads it. -/
structure ExampleSentence where
  text : String
  audio_url : Option String
deriving DecidableEq, Repr

/-- The results object of the queryResult prop; either field may be missing
(null or undefined).  JavaScript objects become association lists keyed by
language code. -/
structure ResultsData where
  definitions : Option (List (String × DefinitionResult))
  examples : Option (List (String × List ExampleSentence))

/-- The queryResult prop: the word and an optional results object. -/
structure QueryResultProp where
  word : String
  results : Option ResultsData

/-- One rendered result card: language code, definition text, phonetic, and
the example items rendered below it. -/
structure ResultCard where
  lang : String
  definition : String
  phonetic : String
  examples : List ExampleSentence
deriving DecidableEq, Repr

/-- The Body component of QueryResult.jsx (lines 17-60): returns null when
queryResult or queryResult.results is missing, and again when definitions or
examples is missing; otherwise renders one card per definitions entry, with
the card examples given by the optional-chained lookup examples[lang]
(rendering nothing, i.e. the empty list, when the language is absent). -/
def Body (queryResult : Option QueryResultProp) : Option (List ResultCard) :=
  match queryResult with
  | none => none
  | some qr =>
      match qr.results with
      | none => none
      | some res =>
          match res.definitions, res.examples with
          | some defs, some exs =>
              some (defs.map fun e =>
                { lang := e.1
                  definition := e.2.definition
                  phonetic := e.2.phonetic
                  examples := (exs.lookup e.1).getD [] })
          | _, _ => none

end QueryResult

/-- Claim C9: Body is total and null-safe — it returns none for a missing
queryResult, missing results, missing definitions or missing examples — and
a language present in definitions but absent from examples still yields its
definition card with an empty example list. -/
theorem c9_body_null_safe (w : String)
    (defs : List (String × QueryResult.DefinitionResult))
    (exs : List (String × List QueryResult.ExampleSentence))
    (lang : String) (r : QueryResult.DefinitionResult)
    (hmem : (lang, r) ∈ defs) (habs : exs.lookup lang = none) :
    QueryResult.Body none = none ∧
    QueryResult.Body (some ⟨w, none⟩) = none ∧
    QueryResult.Body (some ⟨w, some ⟨none, some exs⟩⟩) = none ∧
    QueryResult.Body (some ⟨w, some ⟨some defs, none⟩⟩) = none ∧
    (⟨lang, r.definition, r.phonetic, []⟩ : QueryResult.ResultCard) ∈
      (QueryResult.Body (some ⟨w, some ⟨some defs, some exs⟩⟩)).getD [] := by
  refine ⟨rfl, rfl, rfl, rfl, ?_⟩
  simp only [QueryResult.Body, Option.getD_some]
  exact List.mem_map.mpr ⟨(lang, r), hmem, by simp [habs]⟩

/-- Witness for claim C9: a concrete definitions object with language en and
an examples object without en still renders the en card, with no examples. -/
theorem c9_body_null_safe_witness :
    QueryResult.Body none = none ∧
    QueryResult.Body (some ⟨"hello", none⟩) = none ∧
    QueryResult.Body (some ⟨"hello", some ⟨none, some []⟩⟩) = none ∧
    QueryResult.Body
      (some ⟨"hello", some ⟨some [("en", ⟨"a greeting", "ha-lou"⟩)], none⟩⟩) =
      none ∧
    (⟨"en", "a greeting", "ha-lou", []⟩ : QueryResult.ResultCard) ∈
      (QueryResult.Body (some ⟨"hello",
        some ⟨some [("en", ⟨"a greeting", "ha-lou"⟩)], some []⟩⟩)).getD [] :=
  c9_body_null_safe "hello" [("en", ⟨"a greeting", "ha-lou"⟩)] []
    "en" ⟨"a greeting", "ha-lou"⟩ (by decide) rfl

namespace Orchestrator

/-- Modelled from the spec: the backend Orchestrator lives in
zanan-backend/src/services (dictionary.py), which is not under src/.
Spec section 3 invariants and section 4.1: languages are partitioned into
base-language groups (a dialect family shares one base language, e.g. zh,
zh-yue and zh-sc), and the base language of a code is its part before the
dialect suffix. -/
def baseLang (code : String) : String :=
  ⟨code.data.takeWhile (fun c => c ≠ '-')⟩

/-- Modelled from the spec: the definition and phonetic fields of one
DefinitionResult produced for a language. -/
structure GenOutput where
  definition : String
  phonetic : String
deriving DecidableEq, Repr

/-- Modelled from the spec: the per-language results the Orchestrator
aggregates for query(word, languages).  Per spec section 4.1, generation is
performed once per base-language group and the definition text is reused for
every member of the group — so each definition depends only on the base
language of its code — while the phonetic is produced per dialect. -/
def orchestrate (genDef phon : String → String → String)
    (word : String) (languages : List String) : List (String × GenOutput) :=
  languages.map fun lang =>
    (lang, { definition := genDef word (baseLang lang)
             phonetic := phon word lang })

end Orchestrator

/-- Claim C1: any two requested languages of the same base-language family
receive byte-identical definition strings from the orchestrated query, for
every generator, pronunciation function, word and language list. -/
theorem c1_dialect_family_shared_definition
    (genDef phon : String → String → String) (word : String)
    (languages : List String) (l1 l2 : String)
    (o1 o2 : Orchestrator.GenOutput)
    (h1 : (l1, o1) ∈ Orchestrator.orchestrate genDef phon word languages)
    (h2 : (l2, o2) ∈ Orchestrator.orchestrate genDef phon word languages)
    (hfam : Orchestrator.baseLang l1 = Orchestrator.baseLang l2) :
    o1.definition = o2.definition := by
  simp only [Orchestrator.orchestrate, List.mem_map] at h1 h2
  obtain ⟨a, -, ha⟩ := h1
  obtain ⟨b, -, hb⟩ := h2
  rw [Prod.mk.injEq] at ha hb
  obtain ⟨rfl, rfl⟩ := ha
  obtain ⟨rfl, rfl⟩ := hb
  exact congrArg (genDef word) hfam

/-- Witness for claim C1: with a concrete generator, the dialects zh and
zh-yue of the family zh receive the same definition text. -/
theorem c1_dialect_family_shared_definition_witness :
    (⟨"hello/zh", "hello:zh"⟩ : Orchestrator.GenOutput).definition =
      (⟨"hello/zh", "hello:zh-yue"⟩ : Orchestrator.GenOutput).definition :=
  c1_dialect_family_shared_definition
    (fun w b => w ++ "/" ++ b) (fun w l => w ++ ":" ++ l) "hello"
    ["zh", "zh-yue"] "zh" "zh-yue"
    ⟨"hello/zh", "hello:zh"⟩ ⟨"hello/zh", "hello:zh-yue"⟩
    (by decide) (by decide) (by decide)

end ZananDict
